import Mathlib

/-!
Verification of the batched CSV-to-Neo4j loader in src/etl.py
(class load_data_to_neo4j).

The embedding models:
- a parsed CSV as a DataFrame (column names plus a list of rows of values),
  mirroring the pandas DataFrame returned by pd.read_csv;
- row.to_dict() as rowToDict, zipping the column names with the row values;
- create_product_nodes, which calls tx.run and catches every exception,
  returning normally in all cases (it only logs);
- session.write_transaction, which first runs the transaction function and
  then commits; a commit-time exception propagates to the caller, while an
  exception raised synchronously by tx.run is swallowed inside
  create_product_nodes;
- load_csv_to_neo4j, the batching loop: append each row dict to the
  accumulator, flush when its length reaches batch_size, flush the final
  non-empty accumulator, with the whole loop wrapped in a try/except that
  stops at the first exception escaping a flush;
- load_data, run and the top-level script, including the unconditional
  loader.close() call.

Failure injection is expressed by a TxBehavior per flush index: the store
either succeeds, raises inside tx.run, or raises at commit time.
-/

/-- A scalar cell value as parsed from the CSV (string, number or null). -/
inductive Value
  | str (s : String)
  | num (n : Int)
  | null
  deriving DecidableEq

/-- A Record: one parsed row as a column-name-to-value mapping, as produced
by row.to_dict() in the loading loop. -/
abbrev Record := List (String × Value)

/-- A parsed CSV, as returned by pd.read_csv: a header of column names and
the data rows. -/
structure DataFrame where
  columns : List String
  rows : List (List Value)
  deriving DecidableEq

/-- row.to_dict(): the dict mapping each column name to the value of that
row in the column. -/
def rowToDict (columns : List String) (values : List Value) : Record :=
  columns.zip values

/-- The sequence of Records produced by iterating data.iterrows() and
converting each row with to_dict. -/
def recordsOf (df : DataFrame) : List Record :=
  df.rows.map (rowToDict df.columns)

/-- Outcome of one flush at the store: the transaction succeeds, tx.run
raises synchronously inside the transaction function, or the commit done by
session.write_transaction raises. -/
inductive TxBehavior
  | ok
  | runRaises (msg : String)
  | commitRaises (msg : String)
  deriving DecidableEq

/-- The tx.run call as seen by the transaction function: it raises exactly
when the behavior is runRaises. -/
def txRunOf : TxBehavior → List Record → Except String Unit
  | TxBehavior.ok, _ => Except.ok ()
  | TxBehavior.runRaises m, _ => Except.error m
  | TxBehavior.commitRaises _, _ => Except.ok ()

/-- create_product_nodes (src/etl.py lines 40-54): runs the UNWIND/CREATE
query via tx.run inside a try/except that catches every exception and only
logs it. The return value records whether the error log line was printed;
the function never propagates an exception, which the return type
(Bool, not Except) makes explicit. -/
def create_product_nodes (txRun : List Record → Except String Unit)
    (products : List Record) : Bool :=
  match txRun products with
  | Except.ok _ => false
  | Except.error _ => true

/-- session.write_transaction(create_product_nodes, batch): runs the
transaction function (whose internal try/except swallows tx.run errors),
then commits. The result carries (error log printed inside the transaction
function, nodes of the batch committed); a commit-time exception is returned
as Except.error and propagates to the batching loop. When tx.run raised and
was swallowed, the transaction commits having run no statement, so no node
of the batch is created. -/
def write_transaction (beh : TxBehavior) (products : List Record) :
    Except String (Bool × Bool) :=
  let logged := create_product_nodes (txRunOf beh) products
  match beh with
  | TxBehavior.commitRaises m => Except.error m
  | TxBehavior.ok => Except.ok (logged, true)
  | TxBehavior.runRaises _ => Except.ok (logged, false)

/-- Observable result of one run of the loading loop:
attempted = the batches passed to session.write_transaction, in order;
committed = the batches whose nodes persisted in the store;
txErrorLogs = how many times create_product_nodes logged a caught error;
failed = whether the outer except in load_csv_to_neo4j caught an exception
(printing the failure log line) instead of reaching the success log line. -/
structure RunState where
  attempted : List (List Record)
  committed : List (List Record)
  txErrorLogs : Nat
  failed : Bool
  deriving DecidableEq

/-- The batching loop of load_csv_to_neo4j (src/etl.py lines 63-75), with
the flush outcome at each flush index supplied by beh. Arguments: the
remaining rows (already converted to Records), the current accumulator
(batch), and the index of the next flush. Each iteration appends the row
dict to the accumulator and flushes when its length reaches batch_size B;
after the rows are exhausted a non-empty accumulator is flushed once more.
An exception escaping write_transaction is caught by the surrounding
try/except, ending the run with failed = true. -/
def loadLoopF (beh : Nat → TxBehavior) (B : Nat) :
    List Record → List Record → Nat → RunState
  | [], acc, k =>
    if acc.isEmpty then ⟨[], [], 0, false⟩
    else
      match write_transaction (beh k) acc with
      | Except.error _ => ⟨[acc], [], 0, true⟩
      | Except.ok (logged, comm) =>
        ⟨[acc], if comm then [acc] else [], if logged then 1 else 0, false⟩
  | r :: rest, acc, k =>
    if B ≤ (acc ++ [r]).length then
      match write_transaction (beh k) (acc ++ [r]) with
      | Except.error _ => ⟨[acc ++ [r]], [], 0, true⟩
      | Except.ok (logged, comm) =>
        let s := loadLoopF beh B rest [] (k + 1)
        ⟨(acc ++ [r]) :: s.attempted,
          (if comm then [acc ++ [r]] else []) ++ s.committed,
          (if logged then 1 else 0) + s.txErrorLogs, s.failed⟩
    else loadLoopF beh B rest (acc ++ [r]) k

/-- load_csv_to_neo4j (src/etl.py lines 56-75) applied to a DataFrame: the
batching loop started with an empty accumulator at flush index 0, over the
Records obtained from the rows (in the source the to_dict conversion happens
as each row is appended; converting first is equivalent since the conversion
is pure and row order is preserved). -/
def load_csv_to_neo4j (beh : Nat → TxBehavior) (df : DataFrame) (B : Nat) :
    RunState :=
  loadLoopF beh B (recordsOf df) [] 0

/-- The failure-free store behavior: every flush succeeds. -/
def noFail : Nat → TxBehavior := fun _ => TxBehavior.ok

/-- The pure batching skeleton of the same loop: the list of batches the
loop flushes, in flush order, ignoring flush outcomes. -/
def loadLoop (B : Nat) : List Record → List Record → List (List Record)
  | [], acc => if acc.isEmpty then [] else [acc]
  | r :: rest, acc =>
    if B ≤ (acc ++ [r]).length then (acc ++ [r]) :: loadLoop B rest []
    else loadLoop B rest (acc ++ [r])

/-- The same loop folded over a ready-made list of batches: flush each batch
in order, stopping at the first commit-time exception. Used to relate the
interleaved loop to its batch list. -/
def runBatches (beh : Nat → TxBehavior) : Nat → List (List Record) → RunState
  | _, [] => ⟨[], [], 0, false⟩
  | k, b :: rest =>
    match write_transaction (beh k) b with
    | Except.error _ => ⟨[b], [], 0, true⟩
    | Except.ok (logged, comm) =>
      let s := runBatches beh (k + 1) rest
      ⟨b :: s.attempted, (if comm then [b] else []) ++ s.committed,
        (if logged then 1 else 0) + s.txErrorLogs, s.failed⟩

/-- The length of the in-memory accumulator right after each append in the
loading loop (the only point where the accumulator grows; it otherwise only
resets to empty on flush). -/
def accTrace (B : Nat) : List Record → List Record → List Nat
  | [], _ => []
  | r :: rest, acc =>
    if B ≤ (acc ++ [r]).length then (acc ++ [r]).length :: accTrace B rest []
    else (acc ++ [r]).length :: accTrace B rest (acc ++ [r])

/-- A node of the graph store: a label and its property map. -/
structure Node where
  label : String
  props : Record
  deriving DecidableEq

/-- Store-side effect of the Cypher query
UNWIND $products AS product CREATE (p:Product) SET p = product
(src/etl.py lines 48-51): one node labeled Product per element of the
products parameter, whose properties are set to exactly that element
(SET p = product replaces the property map of p with the map product). -/
def createdNodes (products : List Record) : List Node :=
  products.map (fun product => ⟨"Product", product⟩)

/-- Outcomes of the pd.read_csv call in load_data, matching the except
clauses of src/etl.py lines 32-37. -/
inductive ReadError
  | fileNotFound
  | parserError
  | other (msg : String)

/-- load_data (src/etl.py lines 22-38): returns the parsed DataFrame on
success; on any read exception it logs a message and returns None. -/
def load_data (readResult : Except ReadError DataFrame) : Option DataFrame :=
  match readResult with
  | Except.ok d => some d
  | Except.error _ => none

/-- Observable result of one call of run: the loading state, plus whether a
source-read failure was logged by load_data (in which case loading was
skipped entirely). -/
structure RunOutcome where
  state : RunState
  sourceErrorReported : Bool
  deriving DecidableEq

/-- run (src/etl.py lines 87-96): load the CSV; if load_data returned a
DataFrame, load it into the store, otherwise do nothing further. Every
exception below has already been caught, so run always returns. -/
def run (readResult : Except ReadError DataFrame) (beh : Nat → TxBehavior)
    (B : Nat) : RunOutcome :=
  match load_data readResult with
  | some d => ⟨load_csv_to_neo4j beh d B, false⟩
  | none => ⟨⟨[], [], 0, false⟩, true⟩

/-- close (src/etl.py lines 77-85): attempts driver.close() inside a
try/except; returns whether the close succeeded (an exception is caught and
logged, the attempt having been made either way). -/
def close (closeRaises : Bool) : Bool :=
  !closeRaises

/-- Observable result of the top-level script. -/
structure MainResult where
  outcome : RunOutcome
  closeCalls : Nat
  closeSucceeded : Bool
  deriving DecidableEq

/-- The top-level script (src/etl.py lines 107-109): loader.run() followed
unconditionally by loader.close(). The close call is reached on every input
because run catches every exception and returns normally, so close is
attempted exactly once per invocation. -/
def program_main (readResult : Except ReadError DataFrame)
    (beh : Nat → TxBehavior) (B : Nat) (closeRaises : Bool) : MainResult :=
  ⟨run readResult beh B, 1, close closeRaises⟩

/-! ### Structural lemmas about the batching loop -/

theorem loadLoop_flatten (B : Nat) (rows : List Record) :
    ∀ acc : List Record, (loadLoop B rows acc).flatten = acc ++ rows := by
  induction rows with
  | nil =>
    intro acc
    cases acc with
    | nil => simp [loadLoop]
    | cons a as => simp [loadLoop]
  | cons r rest ih =>
    intro acc
    by_cases hc : B ≤ (acc ++ [r]).length
    · simp only [loadLoop, hc, if_pos, List.flatten_cons, ih]
      simp
    · simp only [loadLoop, hc, if_neg, not_false_iff, ih]
      simp

theorem loadLoopF_eq_runBatches (beh : Nat → TxBehavior) (B : Nat)
    (rows : List Record) :
    ∀ (acc : List Record) (k : Nat),
      loadLoopF beh B rows acc k = runBatches beh k (loadLoop B rows acc) := by
  induction rows with
  | nil =>
    intro acc k
    cases acc with
    | nil => simp [loadLoopF, loadLoop, runBatches]
    | cons a as =>
      simp only [loadLoopF, loadLoop, List.isEmpty_cons, if_neg, Bool.false_eq_true,
        not_false_iff]
      cases hw : write_transaction (beh k) (a :: as) with
      | error m => simp [runBatches, hw]
      | ok p =>
        cases p with
        | mk logged comm => simp [runBatches, hw]
  | cons r rest ih =>
    intro acc k
    by_cases hc : B ≤ (acc ++ [r]).length
    · simp only [loadLoopF, loadLoop, hc, if_pos]
      cases hw : write_transaction (beh k) (acc ++ [r]) with
      | error m => simp [runBatches, hw]
      | ok p =>
        cases p with
        | mk logged comm => simp [runBatches, hw, ih]
    · simp only [loadLoopF, loadLoop, hc, if_neg, not_false_iff, ih]

theorem runBatches_noFail (bs : List (List Record)) :
    ∀ k : Nat, runBatches noFail k bs = ⟨bs, bs, 0, false⟩ := by
  induction bs with
  | nil => intro k; simp [runBatches]
  | cons b rest ih =>
    intro k
    simp [runBatches, write_transaction, create_product_nodes, txRunOf, noFail, ih]

theorem runBatches_no_commit_raise (beh : Nat → TxBehavior)
    (h : ∀ k s, beh k ≠ TxBehavior.commitRaises s) (bs : List (List Record)) :
    ∀ k : Nat, (runBatches beh k bs).attempted = bs ∧
      (runBatches beh k bs).failed = false := by
  induction bs with
  | nil => intro k; simp [runBatches]
  | cons b rest ih =>
    intro k
    cases hbeh : beh k with
    | ok =>
      simp [runBatches, write_transaction, create_product_nodes, txRunOf, hbeh,
        ih k.succ]
    | runRaises m =>
      simp [runBatches, write_transaction, create_product_nodes, txRunOf, hbeh,
        ih k.succ]
    | commitRaises m => exact absurd hbeh (h k m)

theorem loadLoop_batch_ne_nil (B : Nat) (rows : List Record) :
    ∀ acc b, b ∈ loadLoop B rows acc → b ≠ [] := by
  induction rows with
  | nil =>
    intro acc b hb
    cases acc with
    | nil => simp [loadLoop] at hb
    | cons a as =>
      simp [loadLoop] at hb
      simp [hb]
  | cons r rest ih =>
    intro acc b hb
    by_cases hc : B ≤ (acc ++ [r]).length
    · simp only [loadLoop, hc, if_pos, List.mem_cons] at hb
      cases hb with
      | inl h => simp [h]
      | inr h => exact ih [] b h
    · simp only [loadLoop, hc, if_neg, not_false_iff] at hb
      exact ih (acc ++ [r]) b hb

theorem loadLoop_batch_le (B : Nat) (hB : 0 < B) (rows : List Record) :
    ∀ acc, acc.length < B → ∀ b ∈ loadLoop B rows acc, b.length ≤ B := by
  induction rows with
  | nil =>
    intro acc hacc b hb
    cases acc with
    | nil => simp [loadLoop] at hb
    | cons a as =>
      simp [loadLoop] at hb
      subst hb
      exact Nat.le_of_lt hacc
  | cons r rest ih =>
    intro acc hacc b hb
    by_cases hc : B ≤ (acc ++ [r]).length
    · simp only [loadLoop, hc, if_pos, List.mem_cons] at hb
      cases hb with
      | inl h =>
        subst h
        simp only [List.length_append, List.length_singleton]
        omega
      | inr h => exact ih [] (by simpa using hB) b h
    · simp only [loadLoop, hc, if_neg, not_false_iff] at hb
      refine ih (acc ++ [r]) ?_ b hb
      simp only [List.length_append, List.length_singleton] at hc ⊢
      omega

theorem accTrace_le (B : Nat) (hB : 0 < B) (rows : List Record) :
    ∀ acc, acc.length < B → ∀ s ∈ accTrace B rows acc, s ≤ B := by
  induction rows with
  | nil => intro acc hacc s hs; simp [accTrace] at hs
  | cons r rest ih =>
    intro acc hacc s hs
    by_cases hc : B ≤ (acc ++ [r]).length
    · simp only [accTrace, hc, if_pos, List.mem_cons] at hs
      cases hs with
      | inl h =>
        subst h
        simp only [List.length_append, List.length_singleton]
        omega
      | inr h => exact ih [] (by simpa using hB) s h
    · simp only [accTrace, hc, if_neg, not_false_iff, List.mem_cons] at hs
      cases hs with
      | inl h =>
        subst h
        simp only [List.length_append, List.length_singleton] at hc ⊢
        omega
      | inr h =>
        refine ih (acc ++ [r]) ?_ s h
        simp only [List.length_append, List.length_singleton] at hc ⊢
        omega

theorem loadLoop_sizes (B : Nat) (hB : 0 < B) (rows : List Record) :
    ∀ acc : List Record, acc.length < B →
      (loadLoop B rows acc).map List.length =
        List.replicate ((acc.length + rows.length) / B) B ++
          (if (acc.length + rows.length) % B = 0 then []
           else [(acc.length + rows.length) % B]) := by
  induction rows with
  | nil =>
    intro acc hacc
    cases acc with
    | nil => simp [loadLoop]
    | cons a as =>
      have hlt : (a :: as).length < B := hacc
      simp only [loadLoop, List.isEmpty_cons, Bool.false_eq_true, if_neg,
        not_false_iff, List.map_cons, List.map_nil, List.length_nil,
        Nat.add_zero]
      rw [Nat.div_eq_of_lt hlt, Nat.mod_eq_of_lt hlt]
      simp
  | cons r rest ih =>
    intro acc hacc
    by_cases hc : B ≤ (acc ++ [r]).length
    · have hlenB : (acc ++ [r]).length = B := by
        simp only [List.length_append, List.length_singleton] at hc ⊢
        omega
      simp only [loadLoop]
      rw [if_pos hc, List.map_cons, ih [] (by simpa using hB), hlenB]
      have ht : acc.length + (r :: rest).length = B + rest.length := by
        have hl := hlenB
        simp only [List.length_append, List.length_singleton] at hl
        simp only [List.length_cons]
        omega
      rw [ht, Nat.add_div_left _ hB, Nat.add_mod_left]
      simp [List.replicate_succ]
    · have hlen : (acc ++ [r]).length = acc.length + 1 := by simp
      have hlt : (acc ++ [r]).length < B := by omega
      simp only [loadLoop, hc, if_neg, not_false_iff]
      rw [ih (acc ++ [r]) hlt]
      have ht : (acc ++ [r]).length + rest.length = acc.length + (r :: rest).length := by
        simp only [List.length_cons, hlen]
        omega
      rw [ht]

theorem ceil_div_eq (B t : Nat) (hB : 0 < B) :
    t / B + (if t % B = 0 then 0 else 1) = (t + B - 1) / B := by
  have hmod := Nat.div_add_mod t B
  by_cases h0 : t % B = 0
  · have ht : t + B - 1 = (B - 1) + B * (t / B) := by omega
    rw [if_pos h0, ht, Nat.add_mul_div_left _ _ hB,
      Nat.div_eq_of_lt (by omega : B - 1 < B)]
    omega
  · have hr : t % B < B := Nat.mod_lt _ hB
    have ht : t + B - 1 = (t % B - 1) + B * (t / B + 1) := by
      have : B * (t / B + 1) = B * (t / B) + B := by ring
      omega
    rw [if_neg h0, ht, Nat.add_mul_div_left _ _ hB,
      Nat.div_eq_of_lt (by omega : t % B - 1 < B)]
    omega

theorem load_noFail_eq (df : DataFrame) (B : Nat) :
    load_csv_to_neo4j noFail df B =
      ⟨loadLoop B (recordsOf df) [], loadLoop B (recordsOf df) [], 0, false⟩ := by
  rw [load_csv_to_neo4j, loadLoopF_eq_runBatches, runBatches_noFail]

/-! ### The claims -/

/-- Claim C1: for every row sequence of length R and every positive batch
size B, the loader performs exactly ceil(R / B) flushes, of sizes
B, B, ..., followed by R mod B when that is non-zero. -/
theorem c1_flush_count_and_sizes (df : DataFrame) (B : Nat) (hB : 0 < B) :
    (load_csv_to_neo4j noFail df B).attempted.map List.length =
      List.replicate (df.rows.length / B) B ++
        (if df.rows.length % B = 0 then [] else [df.rows.length % B]) ∧
    (load_csv_to_neo4j noFail df B).attempted.length =
      (df.rows.length + B - 1) / B := by
  have hatt : (load_csv_to_neo4j noFail df B).attempted =
      loadLoop B (recordsOf df) [] := by
    rw [load_noFail_eq]
  have hs := loadLoop_sizes B hB (recordsOf df) [] (by simpa using hB)
  simp only [List.length_nil, Nat.zero_add] at hs
  have hrl : (recordsOf df).length = df.rows.length := by
    simp [recordsOf]
  rw [hrl] at hs
  constructor
  · rw [hatt, hs]
  · rw [hatt]
    have hmap := congrArg List.length hs
    rw [List.length_map, List.length_append, List.length_replicate] at hmap
    rw [hmap, ← ceil_div_eq _ _ hB]
    congr 1
    by_cases h : df.rows.length % B = 0 <;> simp [h]

/-- Claim C3: absent failure, every record read from the source lands in
exactly one flushed batch, each batch is flushed (and committed) exactly
once, and concatenating the flushed batches in flush order reproduces the
source rows in source order. -/
theorem c3_records_partition (df : DataFrame) (B : Nat) :
    (load_csv_to_neo4j noFail df B).attempted.flatten = recordsOf df ∧
    (load_csv_to_neo4j noFail df B).committed =
      (load_csv_to_neo4j noFail df B).attempted := by
  rw [load_noFail_eq]
  exact ⟨by simpa using loadLoop_flatten B (recordsOf df) [], rfl⟩

/-- Claim C7: for every positive batch size B, the accumulator of the
loading loop holds at most B records at any time — every length it attains
right after an append is at most B, and consequently every flushed batch has
at most B records. -/
theorem c7_accumulator_bounded (df : DataFrame) (B : Nat) (hB : 0 < B) :
    (∀ s ∈ accTrace B (recordsOf df) [], s ≤ B) ∧
    (∀ b ∈ (load_csv_to_neo4j noFail df B).attempted, b.length ≤ B) := by
  constructor
  · exact accTrace_le B hB (recordsOf df) [] (by simpa using hB)
  · rw [load_noFail_eq]
    exact loadLoop_batch_le B hB (recordsOf df) [] (by simpa using hB)

/-- Claim C8: for every positive batch size, the loader never passes an
empty batch to the node-creation transaction function. -/
theorem c8_no_empty_batch (df : DataFrame) (B : Nat) (_hB : 0 < B)
    (b : List Record) (hb : b ∈ (load_csv_to_neo4j noFail df B).attempted) :
    b ≠ [] := by
  rw [load_noFail_eq] at hb
  exact loadLoop_batch_ne_nil B (recordsOf df) [] b hb

/-- Claim C2: when the write transaction of the second of three (or more)
batches raises (commit failure escaping the transaction function), the run
stops at that batch: only the first two batches are ever submitted (each
once, no retry), only the first batch remains committed, and the failure is
reported by the outer exception handler. -/
theorem c2_stop_on_flush_failure (df : DataFrame) (B : Nat)
    (beh : Nat → TxBehavior) (m : String)
    (hbeh0 : beh 0 = TxBehavior.ok)
    (hbeh1 : beh 1 = TxBehavior.commitRaises m)
    (b0 b1 b2 : List Record) (rest : List (List Record))
    (hbatches : loadLoop B (recordsOf df) [] = b0 :: b1 :: b2 :: rest) :
    (load_csv_to_neo4j beh df B).attempted = [b0, b1] ∧
    (load_csv_to_neo4j beh df B).committed = [b0] ∧
    (load_csv_to_neo4j beh df B).failed = true := by
  rw [load_csv_to_neo4j, loadLoopF_eq_runBatches, hbatches]
  simp [runBatches, write_transaction, create_product_nodes, txRunOf,
    hbeh0, hbeh1]

/-- Claim C4: every node created for a record of a flushed batch carries
exactly that record as its properties (nothing added, removed, renamed or
coerced), and every such record is the verbatim column-to-value zip of its
source row: when the row has one value per column, the property keys are
exactly the columns and the property values are exactly the row values. -/
theorem c4_properties_verbatim (df : DataFrame) (B : Nat)
    (b : List Record) (r : Record)
    (hb : b ∈ (load_csv_to_neo4j noFail df B).attempted) (hr : r ∈ b) :
    (createdNodes b).map Node.props = b ∧
    ∃ v ∈ df.rows, r = rowToDict df.columns v ∧
      (v.length = df.columns.length →
        r.map Prod.fst = df.columns ∧ r.map Prod.snd = v) := by
  constructor
  · have hcomp :
        (Node.props ∘ fun product : Record => (⟨"Product", product⟩ : Node)) =
          id := by
      funext p
      rfl
    simp [createdNodes, List.map_map, hcomp]
  · rw [load_noFail_eq] at hb
    have hflat : r ∈ (loadLoop B (recordsOf df) []).flatten :=
      List.mem_flatten.2 ⟨b, hb, hr⟩
    rw [loadLoop_flatten, List.nil_append, recordsOf] at hflat
    obtain ⟨v, hv, hrv⟩ := List.mem_map.1 hflat
    refine ⟨v, hv, hrv.symm, ?_⟩
    intro hlen
    subst hrv
    rw [rowToDict]
    exact ⟨List.map_fst_zip _ _ (le_of_eq hlen.symm),
      List.map_snd_zip _ _ (le_of_eq hlen)⟩

/-- Claim C5: when the row sequence cannot be produced at all (read_csv
raises, e.g. the file is missing or unparsable), load_data returns None and
run skips loading entirely: zero flushes, zero nodes created, and the
source-read failure is reported. -/
theorem c5_source_failure_no_partial_load (e : ReadError)
    (beh : Nat → TxBehavior) (B : Nat) :
    run (Except.error e) beh B = ⟨⟨[], [], 0, false⟩, true⟩ ∧
    load_data (Except.error e) = none :=
  ⟨rfl, rfl⟩

/-- Claim C6: on an empty source (header only, zero data rows) the run
performs zero flushes, creates zero nodes, does not fail, and the driver is
still closed by the top-level script. -/
theorem c6_empty_source (df : DataFrame) (hdf : df.rows = [])
    (beh : Nat → TxBehavior) (B : Nat) (closeRaises : Bool) :
    (program_main (Except.ok df) beh B closeRaises).outcome.state =
      ⟨[], [], 0, false⟩ ∧
    (program_main (Except.ok df) beh B closeRaises).closeCalls = 1 := by
  refine ⟨?_, rfl⟩
  simp [program_main, run, load_data, load_csv_to_neo4j, recordsOf, hdf,
    loadLoopF]

/-- Claim C9: for every input and every failure behavior of the source and
of the store, the top-level script attempts the driver close exactly once
when the run ends — the loading run catches every exception and returns
normally, so the unconditional close call is always reached. -/
theorem c9_close_attempted_once (readResult : Except ReadError DataFrame)
    (beh : Nat → TxBehavior) (B : Nat) (closeRaises : Bool) :
    (program_main readResult beh B closeRaises).closeCalls = 1 :=
  rfl

/-- Claim C10: create_product_nodes catches every exception raised by
tx.run and returns normally (merely recording the log line), so a
synchronous write failure never reaches the batching loop: as long as no
commit-time exception occurs, the loop attempts every batch and finishes
without reporting failure, whatever tx.run does. -/
theorem c10_txrun_errors_swallowed (m : String) (ps : List Record)
    (df : DataFrame) (B : Nat) (beh : Nat → TxBehavior)
    (h : ∀ k s, beh k ≠ TxBehavior.commitRaises s) :
    create_product_nodes (fun _ => Except.error m) ps = true ∧
    (load_csv_to_neo4j beh df B).attempted = loadLoop B (recordsOf df) [] ∧
    (load_csv_to_neo4j beh df B).failed = false := by
  refine ⟨rfl, ?_, ?_⟩
  · rw [load_csv_to_neo4j, loadLoopF_eq_runBatches]
    exact (runBatches_no_commit_raise beh h _ 0).1
  · rw [load_csv_to_neo4j, loadLoopF_eq_runBatches]
    exact (runBatches_no_commit_raise beh h _ 0).2

/-! ### Witnesses -/

/-- Witness for C1 at R = 2500, B = 1000: exactly 3 flushes, of sizes
1000, 1000, 500. -/
theorem c1_flush_count_and_sizes_witness :
    (load_csv_to_neo4j noFail ⟨["c"], List.replicate 2500 [Value.null]⟩
        1000).attempted.map List.length = [1000, 1000, 500] ∧
    (load_csv_to_neo4j noFail ⟨["c"], List.replicate 2500 [Value.null]⟩
        1000).attempted.length = 3 := by
  have hdf :
      (⟨["c"], List.replicate 2500 [Value.null]⟩ : DataFrame).rows.length =
        2500 :=
    List.length_replicate 2500 [Value.null]
  have h := c1_flush_count_and_sizes ⟨["c"], List.replicate 2500 [Value.null]⟩
    1000 (by norm_num)
  rw [hdf] at h
  exact ⟨h.1.trans (by decide), h.2.trans (by decide)⟩

/-- Witness for C2: three one-row batches, commit failure injected on the
second flush. -/
theorem c2_stop_on_flush_failure_witness :
    (load_csv_to_neo4j
        (fun k => if k = 1 then TxBehavior.commitRaises "boom"
          else TxBehavior.ok)
        ⟨["id"], [[Value.num 0], [Value.num 1], [Value.num 2]]⟩ 1).attempted =
      [[[("id", Value.num 0)]], [[("id", Value.num 1)]]] ∧
    (load_csv_to_neo4j
        (fun k => if k = 1 then TxBehavior.commitRaises "boom"
          else TxBehavior.ok)
        ⟨["id"], [[Value.num 0], [Value.num 1], [Value.num 2]]⟩ 1).committed =
      [[[("id", Value.num 0)]]] ∧
    (load_csv_to_neo4j
        (fun k => if k = 1 then TxBehavior.commitRaises "boom"
          else TxBehavior.ok)
        ⟨["id"], [[Value.num 0], [Value.num 1], [Value.num 2]]⟩ 1).failed =
      true :=
  c2_stop_on_flush_failure
    ⟨["id"], [[Value.num 0], [Value.num 1], [Value.num 2]]⟩ 1
    (fun k => if k = 1 then TxBehavior.commitRaises "boom" else TxBehavior.ok)
    "boom" (by decide) (by decide)
    [[("id", Value.num 0)]] [[("id", Value.num 1)]] [[("id", Value.num 2)]] []
    (by decide)

/-- Witness for C4: a one-row, two-column source at batch size 1. -/
theorem c4_properties_verbatim_witness :
    (createdNodes [[("id", Value.num 1), ("name", Value.str "x")]]).map
        Node.props =
      [[("id", Value.num 1), ("name", Value.str "x")]] ∧
    ∃ v ∈ (⟨["id", "name"], [[Value.num 1, Value.str "x"]]⟩ : DataFrame).rows,
      [("id", Value.num 1), ("name", Value.str "x")] =
        rowToDict
          (⟨["id", "name"], [[Value.num 1, Value.str "x"]]⟩ :
            DataFrame).columns v ∧
      (v.length =
          (⟨["id", "name"], [[Value.num 1, Value.str "x"]]⟩ :
            DataFrame).columns.length →
        ([("id", Value.num 1), ("name", Value.str "x")] : Record).map
            Prod.fst =
          (⟨["id", "name"], [[Value.num 1, Value.str "x"]]⟩ :
            DataFrame).columns ∧
        ([("id", Value.num 1), ("name", Value.str "x")] : Record).map
            Prod.snd = v) :=
  c4_properties_verbatim ⟨["id", "name"], [[Value.num 1, Value.str "x"]]⟩ 1
    [[("id", Value.num 1), ("name", Value.str "x")]]
    [("id", Value.num 1), ("name", Value.str "x")]
    (by decide) (by decide)

/-- Witness for C6: a header-only source. -/
theorem c6_empty_source_witness :
    (program_main (Except.ok ⟨["h"], []⟩) noFail 1000 false).outcome.state =
      ⟨[], [], 0, false⟩ ∧
    (program_main (Except.ok ⟨["h"], []⟩) noFail 1000 false).closeCalls = 1 :=
  c6_empty_source ⟨["h"], []⟩ rfl noFail 1000 false

/-- Witness for C7: three rows at batch size 2. -/
theorem c7_accumulator_bounded_witness :
    (∀ s ∈ accTrace 2
        (recordsOf ⟨["id"], [[Value.num 0], [Value.num 1], [Value.num 2]]⟩)
        [], s ≤ 2) ∧
    (∀ b ∈ (load_csv_to_neo4j noFail
        ⟨["id"], [[Value.num 0], [Value.num 1], [Value.num 2]]⟩ 2).attempted,
      b.length ≤ 2) :=
  c7_accumulator_bounded
    ⟨["id"], [[Value.num 0], [Value.num 1], [Value.num 2]]⟩ 2 (by decide)

/-- Witness for C8: the single batch flushed for a one-row source is
non-empty. -/
theorem c8_no_empty_batch_witness :
    ([[("id", Value.num 0)]] : List Record) ≠ [] :=
  c8_no_empty_batch ⟨["id"], [[Value.num 0]]⟩ 1 (by decide)
    [[("id", Value.num 0)]] (by decide)

/-- Witness for C10: tx.run raises on every flush, yet both batches are
attempted and no failure escapes to the loop. -/
theorem c10_txrun_errors_swallowed_witness :
    create_product_nodes (fun _ => Except.error "boom") [] = true ∧
    (load_csv_to_neo4j (fun _ => TxBehavior.runRaises "x")
        ⟨["id"], [[Value.num 0], [Value.num 1]]⟩ 1).attempted =
      loadLoop 1 (recordsOf ⟨["id"], [[Value.num 0], [Value.num 1]]⟩) [] ∧
    (load_csv_to_neo4j (fun _ => TxBehavior.runRaises "x")
        ⟨["id"], [[Value.num 0], [Value.num 1]]⟩ 1).failed = false :=
  c10_txrun_errors_swallowed "boom" []
    ⟨["id"], [[Value.num 0], [Value.num 1]]⟩ 1
    (fun _ => TxBehavior.runRaises "x") (fun _ _ h => nomatch h)
